import Mathlib

/-
Verification development for the Pong IR communication state machine
(src/communication.c).  The session state, the external-call API and the
per-tick state machine `communication_update` are embedded shallowly:
machine bytes are `Nat` with explicit `% 256` where C's uint8 arithmetic
could wrap, the IR driver is abstracted to per-tick inputs (write-ready
flag, optionally received byte) and an explicit list of bytes written.
-/

/- One-byte codes used over the IR channel (communication.c lines 12-29). -/

def BLANK_BYTE : Nat := 0xFF

def START_CODE : Nat := 0xFE

def START_ACK : Nat := 0xFD

def END_CODE : Nat := 0xFC

def END_ACK : Nat := 0xFB

def GAME_OVER_CODE : Nat := 0xFA

def PREFIX_MASK : Nat := 0xF0

def SUFFIX_MASK : Nat := 0x0F

def THREE_MASK : Nat := 0x07

def ONE_MASK : Nat := 0x08

def PHYSICS_ACK : Nat := 0xD0

def SEQ_NUMBER_LIMIT : Nat := 8

/- Communication states (communication.c lines 32-40). -/

inductive CommunicationState_t where
  | START_REC
  | START_SEND
  | RECIEVING
  | WAITING
  | SENDING
  | END_ROUND
  | GAME_OVER
deriving Repr, DecidableEq

/- The packet exchanged with the caller (communication.h lines 12-21). -/

structure CommunicationPacket_t where
  startGame : Bool
  haveBall : Bool
  endRound : Bool
  gameOver : Bool
  physicsInfo : Bool
  posR : Nat
  dirR : Bool
  magC : Nat
deriving Repr, DecidableEq

/-- Empty communication packet (communication.c lines 43-53); the C
designated initializer zero-fills the unnamed numeric fields. -/
def null_packet : CommunicationPacket_t :=
  { startGame := false
    haveBall := false
    endRound := false
    physicsInfo := false
    gameOver := false
    posR := 0
    dirR := false
    magC := 0 }

/-- Packet indicating the game has started (communication.c lines 59-65). -/
def game_start_packet (haveBall : Bool) : CommunicationPacket_t :=
  { null_packet with startGame := true, haveBall := haveBall }

/-- Packet indicating the round has ended (communication.c lines 70-75). -/
def end_round_packet : CommunicationPacket_t :=
  { null_packet with endRound := true }

/-- Packet carrying the ball's physics state (communication.c lines 83-92);
only the low three bits of `posR` and `magC` are kept. -/
def communication_physics_packet (posR : Nat) (dirR : Bool) (magC : Nat) :
    CommunicationPacket_t :=
  { null_packet with
    physicsInfo := true
    posR := posR &&& THREE_MASK
    magC := magC &&& THREE_MASK
    dirR := dirR }

/-- Packet indicating the game has ended (communication.c lines 97-101). -/
def end_game_packet : CommunicationPacket_t :=
  { null_packet with gameOver := true }

/- The session state of the protocol: the C module's file-level statics
`physicsSeqNumber`, `physicsPacket`, `currentState` (lines 104-109) plus
the function-level statics `readData` and `tickCount` of
`communication_update` (lines 165, 169). -/

structure CommState where
  currentState : CommunicationState_t
  physicsSeqNumber : Nat
  physicsPacket : CommunicationPacket_t
  readData : Nat
  tickCount : Nat
deriving Repr, DecidableEq

/-- The initial session state: `communication_init` (lines 112-119) sets the
state and the physics packet; the statics carry their C initializers
(`physicsSeqNumber = 0`, `readData = BLANK_BYTE`, `tickCount = 0`). -/
def communication_init : CommState :=
  { currentState := .START_REC
    physicsSeqNumber := 0
    physicsPacket := { null_packet with physicsInfo := true }
    readData := BLANK_BYTE
    tickCount := 0 }

/-- `communication_send_end_round` (lines 122-125). -/
def communication_send_end_round (s : CommState) : CommState :=
  { s with currentState := .END_ROUND }

/-- `communication_send_end_game` (lines 128-131). -/
def communication_send_end_game (s : CommState) : CommState :=
  { s with currentState := .GAME_OVER }

/-- `communication_send_physics_info` (lines 138-150): a no-op unless in
WAITING; otherwise move to SENDING, bump an odd sequence number back to even
parity (uint8 increment) and store the masked payload packet. -/
def communication_send_physics_info (s : CommState) (posR : Nat) (dirR : Bool)
    (magC : Nat) : CommState :=
  if s.currentState ≠ .WAITING then s
  else
    { s with
      currentState := .SENDING
      physicsSeqNumber :=
        if s.physicsSeqNumber % 2 == 1 then (s.physicsSeqNumber + 1) % 256
        else s.physicsSeqNumber
      physicsPacket := communication_physics_packet posR dirR magC }

/- Per-tick inputs from the environment: whether `ir_uart_write_ready_p`
holds, the byte delivered when `ir_uart_read_ready_p` holds, and whether a
navswitch push event is pending (polled only in START_REC). -/

structure CommInput where
  writeReady : Bool
  recv : Option Nat
  navPush : Bool
deriving Repr, DecidableEq

/-- The send-cadence gate (communication.c lines 168-177): the tick counter
alternates mod 2; on a counter-eligible tick the byte may be sent only when
the link is write-ready, otherwise eligibility is pushed to the next tick by
incrementing the counter once more.  Returns (sendFrame, new tickCount). -/
def cadence (tickCount : Nat) (writeReady : Bool) : Bool × Nat :=
  let t := (tickCount + 1) % 2
  if t == 0 then
    if writeReady then (true, t) else (false, t + 1)
  else (false, t)

/-- The persisted read slot after this tick's poll (lines 180-182): a newly
arrived byte overwrites the slot, otherwise the old value stays visible. -/
def effectiveRead (readData : Nat) (recv : Option Nat) : Nat :=
  match recv with
  | some b => b
  | none => readData

/-- Top four bits of a wire byte, read as a sequence number
(communication.c lines 263, 293). -/
def decode_seq (b : Nat) : Nat := (b &&& PREFIX_MASK) >>> 4

/-- Bottom four bits of a wire byte, the payload nibble (line 265). -/
def decode_payload (b : Nat) : Nat := b &&& SUFFIX_MASK

/-- The position-half wire byte: `seqCode | physicsPacket.posR` (lines
319-321) after the packet builder masked `posR` to three bits (line 88). -/
def encode_position_half (seq posR : Nat) : Nat :=
  ((seq <<< 4) % 256) ||| (posR &&& THREE_MASK)

/-- The velocity-half wire byte (line 323). -/
def encode_velocity_half (seq : Nat) (dirR : Bool) (magC : Nat) : Nat :=
  ((seq <<< 4) % 256) ||| (THREE_MASK &&& magC) |||
    (if dirR then ONE_MASK else 0x00)

/- Result of one switch case: the five session fields it may update, the
bytes written to the IR channel this tick (at most one per C path), and the
packet returned to the caller. -/

structure StepOut where
  st : CommunicationState_t
  seq : Nat
  pkt : CommunicationPacket_t
  rd : Nat
  sent : List Nat
  ret : CommunicationPacket_t
deriving Repr, DecidableEq

/-- `case START_REC` (communication.c lines 187-210). -/
def case_START_REC (seq : Nat) (pkt : CommunicationPacket_t) (rd : Nat)
    (sendFrame navPush : Bool) : StepOut :=
  if rd == START_CODE then
    ⟨.RECIEVING, seq, pkt, rd, [], game_start_packet false⟩
  else if rd == END_CODE && sendFrame then
    ⟨.START_REC, seq, pkt, BLANK_BYTE, [END_ACK], null_packet⟩
  else if navPush then
    ⟨.START_SEND, seq, pkt, rd, [], null_packet⟩
  else
    ⟨.START_REC, seq, pkt, rd, [], null_packet⟩

/-- `case START_SEND` (communication.c lines 211-237). -/
def case_START_SEND (seq : Nat) (pkt : CommunicationPacket_t) (rd : Nat)
    (sendFrame : Bool) : StepOut :=
  if rd == START_ACK then
    ⟨.WAITING, seq, pkt, BLANK_BYTE, [], game_start_packet true⟩
  else if rd == END_CODE && sendFrame then
    ⟨.START_SEND, seq, pkt, BLANK_BYTE, [END_ACK], null_packet⟩
  else if rd == START_CODE then
    ⟨.START_REC, seq, pkt, BLANK_BYTE, [], null_packet⟩
  else if sendFrame then
    ⟨.START_SEND, seq, pkt, rd, [START_CODE], null_packet⟩
  else
    ⟨.START_SEND, seq, pkt, rd, [], null_packet⟩

/-- `case RECIEVING` (communication.c lines 238-287).  When the incoming
sequence number matches, the acknowledgement and slot clear happen only on a
send frame, but the payload is stored and the sequence advanced regardless;
the full payload nibble is stored as `posR` on the even half. -/
def case_RECIEVING (seq : Nat) (pkt : CommunicationPacket_t) (rd : Nat)
    (sendFrame : Bool) : StepOut :=
  if rd == START_CODE && sendFrame then
    ⟨.RECIEVING, seq, pkt, BLANK_BYTE, [START_ACK], null_packet⟩
  else if rd == GAME_OVER_CODE then
    ⟨.GAME_OVER, seq, pkt, BLANK_BYTE, [], end_game_packet⟩
  else if rd == END_CODE then
    ⟨.START_REC, seq, pkt, BLANK_BYTE, [], end_round_packet⟩
  else
    let seqNumber := decode_seq rd
    let lastPhyisicsSeq := (seq + SEQ_NUMBER_LIMIT - 1) % SEQ_NUMBER_LIMIT
    let data := decode_payload rd
    if seqNumber == seq then
      let rd2 := if sendFrame then BLANK_BYTE else rd
      let acks := if sendFrame then [PHYSICS_ACK ||| seq] else []
      if seq % 2 == 0 then
        ⟨.RECIEVING, (seq + 1) % 256, { pkt with posR := data }, rd2, acks,
          null_packet⟩
      else
        let pkt2 :=
          { pkt with dirR := (data &&& ONE_MASK) != 0, magC := data &&& THREE_MASK }
        ⟨.WAITING, (seq + 1) % 256, pkt2, rd2, acks, pkt2⟩
    else if seqNumber == lastPhyisicsSeq && sendFrame then
      ⟨.RECIEVING, seq, pkt, BLANK_BYTE, [PHYSICS_ACK ||| lastPhyisicsSeq],
        null_packet⟩
    else
      ⟨.RECIEVING, seq, pkt, rd, [], null_packet⟩

/-- `case WAITING` (communication.c lines 288-299). -/
def case_WAITING (seq : Nat) (pkt : CommunicationPacket_t) (rd : Nat)
    (sendFrame : Bool) : StepOut :=
  let lastPhysicsSeqNumber := (seq + SEQ_NUMBER_LIMIT - 1) % SEQ_NUMBER_LIMIT
  let recievedSeqNumber := decode_seq rd
  if recievedSeqNumber == lastPhysicsSeqNumber && sendFrame then
    ⟨.WAITING, seq, pkt, BLANK_BYTE, [PHYSICS_ACK ||| lastPhysicsSeqNumber],
      null_packet⟩
  else
    ⟨.WAITING, seq, pkt, rd, [], null_packet⟩

/-- The transmit half of `case SENDING` (communication.c lines 318-325),
run with the sequence number as updated by the acknowledgement check. -/
def sending_send (seq : Nat) (pkt : CommunicationPacket_t) (rd : Nat)
    (sendFrame : Bool) : StepOut :=
  if sendFrame then
    let seqCode := (seq <<< 4) % 256
    if seq % 2 == 0 then
      ⟨.SENDING, seq, pkt, rd, [seqCode ||| pkt.posR], null_packet⟩
    else
      ⟨.SENDING, seq, pkt, rd,
        [seqCode ||| (THREE_MASK &&& pkt.magC) |||
          (if pkt.dirR then ONE_MASK else 0x00)], null_packet⟩
  else
    ⟨.SENDING, seq, pkt, rd, [], null_packet⟩

/-- `case SENDING` (communication.c lines 300-327): a matching physics ack
clears the slot and advances the sequence; on the odd half it also moves to
RECIEVING and skips this tick's transmit. -/
def case_SENDING (seq : Nat) (pkt : CommunicationPacket_t) (rd : Nat)
    (sendFrame : Bool) : StepOut :=
  if (rd &&& PREFIX_MASK) == PHYSICS_ACK && (rd &&& SUFFIX_MASK) == seq then
    if seq % 2 == 0 then
      sending_send ((seq + 1) % 256) pkt BLANK_BYTE sendFrame
    else
      ⟨.RECIEVING, (seq + 1) % 256, pkt, BLANK_BYTE, [], null_packet⟩
  else
    sending_send seq pkt rd sendFrame

/-- `case END_ROUND` (communication.c lines 328-342). -/
def case_END_ROUND (seq : Nat) (pkt : CommunicationPacket_t) (rd : Nat)
    (sendFrame : Bool) : StepOut :=
  if rd == END_ACK then
    ⟨.START_REC, seq, pkt, BLANK_BYTE, [], null_packet⟩
  else if sendFrame then
    ⟨.END_ROUND, seq, pkt, rd, [END_CODE], null_packet⟩
  else
    ⟨.END_ROUND, seq, pkt, rd, [], null_packet⟩

/-- `case GAME_OVER` (communication.c lines 343-350). -/
def case_GAME_OVER (seq : Nat) (pkt : CommunicationPacket_t) (rd : Nat)
    (sendFrame : Bool) : StepOut :=
  if sendFrame then
    ⟨.GAME_OVER, seq, pkt, rd, [GAME_OVER_CODE], null_packet⟩
  else
    ⟨.GAME_OVER, seq, pkt, rd, [], null_packet⟩

/- Result of one tick: the new session state, the bytes written to the IR
channel during the tick, and the packet returned to the caller. -/

structure CommResult where
  state : CommState
  sent : List Nat
  packet : CommunicationPacket_t
deriving Repr, DecidableEq

/-- `communication_update` (communication.c lines 156-354): normalize the
sequence number into [0,7], run the cadence gate, poll the channel into the
persistent read slot, then dispatch on the current state. -/
def communication_update (s : CommState) (inp : CommInput) : CommResult :=
  let seq0 := s.physicsSeqNumber % SEQ_NUMBER_LIMIT
  let g := cadence s.tickCount inp.writeReady
  let rd := effectiveRead s.readData inp.recv
  let o :=
    match s.currentState with
    | .START_REC => case_START_REC seq0 s.physicsPacket rd g.1 inp.navPush
    | .START_SEND => case_START_SEND seq0 s.physicsPacket rd g.1
    | .RECIEVING => case_RECIEVING seq0 s.physicsPacket rd g.1
    | .WAITING => case_WAITING seq0 s.physicsPacket rd g.1
    | .SENDING => case_SENDING seq0 s.physicsPacket rd g.1
    | .END_ROUND => case_END_ROUND seq0 s.physicsPacket rd g.1
    | .GAME_OVER => case_GAME_OVER seq0 s.physicsPacket rd g.1
  { state :=
      { currentState := o.st
        physicsSeqNumber := o.seq
        physicsPacket := o.pkt
        readData := o.rd
        tickCount := g.2 }
    sent := o.sent
    packet := o.ret }

/- Helper lemmas about the cadence gate. -/

theorem cadence_fst_true_snd (t : Nat) (w : Bool)
    (h : (cadence t w).1 = true) : (cadence t w).2 = 0 := by
  unfold cadence at h ⊢
  rcases Nat.mod_two_eq_zero_or_one (t + 1) with h2 | h2 <;>
    cases w <;> simp [h2] at h ⊢

theorem cadence_fst_false_snd (t : Nat) (w : Bool)
    (h : (cadence t w).1 = false) : (cadence t w).2 = 1 := by
  unfold cadence at h ⊢
  rcases Nat.mod_two_eq_zero_or_one (t + 1) with h2 | h2 <;>
    cases w <;> simp [h2] at h ⊢

theorem cadence_zero (w : Bool) : cadence 0 w = (false, 1) := by
  cases w <;> decide

theorem cadence_deferred (t : Nat) (h : (t + 1) % 2 = 0) :
    (cadence t false).2 = 1 := by
  unfold cadence
  simp [h]

/- Each switch case writes at most one byte, and writes nothing at all
outside a send frame. -/

theorem case_START_REC_sent_len (seq : Nat) (pkt : CommunicationPacket_t)
    (rd : Nat) (sf nav : Bool) :
    (case_START_REC seq pkt rd sf nav).sent.length ≤ 1 := by
  unfold case_START_REC; split_ifs <;> simp

theorem case_START_SEND_sent_len (seq : Nat) (pkt : CommunicationPacket_t)
    (rd : Nat) (sf : Bool) :
    (case_START_SEND seq pkt rd sf).sent.length ≤ 1 := by
  unfold case_START_SEND; split_ifs <;> simp

theorem case_RECIEVING_sent_len (seq : Nat) (pkt : CommunicationPacket_t)
    (rd : Nat) (sf : Bool) :
    (case_RECIEVING seq pkt rd sf).sent.length ≤ 1 := by
  simp only [case_RECIEVING]
  repeat' split
  all_goals simp

theorem case_WAITING_sent_len (seq : Nat) (pkt : CommunicationPacket_t)
    (rd : Nat) (sf : Bool) :
    (case_WAITING seq pkt rd sf).sent.length ≤ 1 := by
  simp only [case_WAITING]
  repeat' split
  all_goals simp

theorem sending_send_sent_len (seq : Nat) (pkt : CommunicationPacket_t)
    (rd : Nat) (sf : Bool) :
    (sending_send seq pkt rd sf).sent.length ≤ 1 := by
  unfold sending_send; split_ifs <;> simp

theorem case_SENDING_sent_len (seq : Nat) (pkt : CommunicationPacket_t)
    (rd : Nat) (sf : Bool) :
    (case_SENDING seq pkt rd sf).sent.length ≤ 1 := by
  unfold case_SENDING
  split_ifs <;> first | simp | apply sending_send_sent_len

theorem case_END_ROUND_sent_len (seq : Nat) (pkt : CommunicationPacket_t)
    (rd : Nat) (sf : Bool) :
    (case_END_ROUND seq pkt rd sf).sent.length ≤ 1 := by
  unfold case_END_ROUND; split_ifs <;> simp

theorem case_GAME_OVER_sent_len (seq : Nat) (pkt : CommunicationPacket_t)
    (rd : Nat) (sf : Bool) :
    (case_GAME_OVER seq pkt rd sf).sent.length ≤ 1 := by
  unfold case_GAME_OVER; split_ifs <;> simp

theorem case_START_REC_no_send (seq : Nat) (pkt : CommunicationPacket_t)
    (rd : Nat) (nav : Bool) :
    (case_START_REC seq pkt rd false nav).sent = [] := by
  unfold case_START_REC; split_ifs <;> simp_all

theorem case_START_SEND_no_send (seq : Nat) (pkt : CommunicationPacket_t)
    (rd : Nat) : (case_START_SEND seq pkt rd false).sent = [] := by
  unfold case_START_SEND; split_ifs <;> simp_all

theorem case_RECIEVING_no_send (seq : Nat) (pkt : CommunicationPacket_t)
    (rd : Nat) : (case_RECIEVING seq pkt rd false).sent = [] := by
  simp only [case_RECIEVING]
  repeat' split
  all_goals simp_all

theorem case_WAITING_no_send (seq : Nat) (pkt : CommunicationPacket_t)
    (rd : Nat) : (case_WAITING seq pkt rd false).sent = [] := by
  simp only [case_WAITING]
  repeat' split
  all_goals simp_all

theorem case_SENDING_no_send (seq : Nat) (pkt : CommunicationPacket_t)
    (rd : Nat) : (case_SENDING seq pkt rd false).sent = [] := by
  unfold case_SENDING sending_send; split_ifs <;> simp_all

theorem case_END_ROUND_no_send (seq : Nat) (pkt : CommunicationPacket_t)
    (rd : Nat) : (case_END_ROUND seq pkt rd false).sent = [] := by
  unfold case_END_ROUND; split_ifs <;> simp_all

theorem case_GAME_OVER_no_send (seq : Nat) (pkt : CommunicationPacket_t)
    (rd : Nat) : (case_GAME_OVER seq pkt rd false).sent = [] := by
  unfold case_GAME_OVER; split_ifs <;> simp_all

/- Lemmas about the assembled tick function. -/

theorem communication_update_tickCount (s : CommState) (inp : CommInput) :
    (communication_update s inp).state.tickCount =
      (cadence s.tickCount inp.writeReady).2 := by
  obtain ⟨st, n, pkt, rd, t⟩ := s
  cases st <;> rfl

theorem communication_update_sent_nil (s : CommState) (inp : CommInput)
    (h : (cadence s.tickCount inp.writeReady).1 = false) :
    (communication_update s inp).sent = [] := by
  obtain ⟨st, n, pkt, rd, t⟩ := s
  cases st <;>
    simp [communication_update, h, case_START_REC_no_send,
      case_START_SEND_no_send, case_RECIEVING_no_send, case_WAITING_no_send,
      case_SENDING_no_send, case_END_ROUND_no_send, case_GAME_OVER_no_send]

theorem communication_update_sent_len (s : CommState) (inp : CommInput) :
    (communication_update s inp).sent.length ≤ 1 := by
  obtain ⟨st, n, pkt, rd, t⟩ := s
  cases st <;>
    simp only [communication_update] <;>
    first
      | apply case_START_REC_sent_len
      | apply case_START_SEND_sent_len
      | apply case_RECIEVING_sent_len
      | apply case_WAITING_sent_len
      | apply case_SENDING_sent_len
      | apply case_END_ROUND_sent_len
      | apply case_GAME_OVER_sent_len

/- Sequence-number behaviour of each switch case. -/

theorem case_START_REC_seq (seq : Nat) (pkt : CommunicationPacket_t)
    (rd : Nat) (sf nav : Bool) : (case_START_REC seq pkt rd sf nav).seq = seq := by
  simp only [case_START_REC]
  repeat' split
  all_goals rfl

theorem case_START_SEND_seq (seq : Nat) (pkt : CommunicationPacket_t)
    (rd : Nat) (sf : Bool) : (case_START_SEND seq pkt rd sf).seq = seq := by
  simp only [case_START_SEND]
  repeat' split
  all_goals rfl

theorem case_WAITING_seq (seq : Nat) (pkt : CommunicationPacket_t)
    (rd : Nat) (sf : Bool) : (case_WAITING seq pkt rd sf).seq = seq := by
  simp only [case_WAITING]
  repeat' split
  all_goals rfl

theorem case_END_ROUND_seq (seq : Nat) (pkt : CommunicationPacket_t)
    (rd : Nat) (sf : Bool) : (case_END_ROUND seq pkt rd sf).seq = seq := by
  simp only [case_END_ROUND]
  repeat' split
  all_goals rfl

theorem case_GAME_OVER_seq (seq : Nat) (pkt : CommunicationPacket_t)
    (rd : Nat) (sf : Bool) : (case_GAME_OVER seq pkt rd sf).seq = seq := by
  simp only [case_GAME_OVER]
  repeat' split
  all_goals rfl

theorem sending_send_seq (seq : Nat) (pkt : CommunicationPacket_t)
    (rd : Nat) (sf : Bool) : (sending_send seq pkt rd sf).seq = seq := by
  simp only [sending_send]
  repeat' split
  all_goals rfl

theorem case_RECIEVING_seq_le (seq : Nat) (pkt : CommunicationPacket_t)
    (rd : Nat) (sf : Bool) (h : seq < 8) :
    (case_RECIEVING seq pkt rd sf).seq ≤ 8 := by
  simp only [case_RECIEVING]
  repeat' split
  all_goals simp
  all_goals omega

theorem case_SENDING_seq_le (seq : Nat) (pkt : CommunicationPacket_t)
    (rd : Nat) (sf : Bool) (h : seq < 8) :
    (case_SENDING seq pkt rd sf).seq ≤ 8 := by
  simp only [case_SENDING]
  repeat' split
  all_goals simp [sending_send_seq]
  all_goals omega

theorem communication_update_seq_le (s : CommState) (inp : CommInput) :
    (communication_update s inp).state.physicsSeqNumber ≤ 8 := by
  obtain ⟨st, n, pkt, rd, t⟩ := s
  have h8 : n % 8 < 8 := Nat.mod_lt _ (by norm_num)
  cases st
  case START_REC => simp [communication_update, SEQ_NUMBER_LIMIT, case_START_REC_seq]; omega
  case START_SEND => simp [communication_update, SEQ_NUMBER_LIMIT, case_START_SEND_seq]; omega
  case RECIEVING =>
    simp only [communication_update]
    exact case_RECIEVING_seq_le _ _ _ _ h8
  case WAITING => simp [communication_update, SEQ_NUMBER_LIMIT, case_WAITING_seq]; omega
  case SENDING =>
    simp only [communication_update]
    exact case_SENDING_seq_le _ _ _ _ h8
  case END_ROUND => simp [communication_update, SEQ_NUMBER_LIMIT, case_END_ROUND_seq]; omega
  case GAME_OVER => simp [communication_update, SEQ_NUMBER_LIMIT, case_GAME_OVER_seq]; omega

theorem communication_update_normalized (s : CommState) (inp : CommInput) :
    communication_update s inp =
      communication_update { s with physicsSeqNumber := s.physicsSeqNumber % 8 } inp := by
  obtain ⟨st, n, pkt, rd, t⟩ := s
  have h : n % 8 % 8 = n % 8 := by omega
  cases st <;> simp [communication_update, SEQ_NUMBER_LIMIT, h]

/- Reachability of session states through the exported API, starting from
`communication_init`. -/

inductive Reachable : CommState → Prop where
  | init : Reachable communication_init
  | tick (s : CommState) (inp : CommInput) (h : Reachable s) :
      Reachable (communication_update s inp).state
  | physics (s : CommState) (p : Nat) (d : Bool) (m : Nat) (h : Reachable s) :
      Reachable (communication_send_physics_info s p d m)
  | endRound (s : CommState) (h : Reachable s) :
      Reachable (communication_send_end_round s)
  | endGame (s : CommState) (h : Reachable s) :
      Reachable (communication_send_end_game s)

/-- One tick on which nothing may be transmitted (link not write-ready) and
the byte `b` arrives. -/
def tickRecv (s : CommState) (b : Nat) : CommState :=
  (communication_update s { writeReady := false, recv := some b, navPush := false }).state

def runTicks (s : CommState) (bs : List Nat) : CommState :=
  bs.foldl tickRecv s

theorem reachable_runTicks (bs : List Nat) (s : CommState) (h : Reachable s) :
    Reachable (runTicks s bs) := by
  induction bs generalizing s with
  | nil => exact h
  | cons b bs ih => exact ih _ (Reachable.tick s _ h)

/- A concrete legal session: handshake as receiver, one received handoff,
one sent handoff, an aborted round, then a fresh handshake while the
sequence number stands at 6, and one more received position half.  It ends
in RECIEVING with sequence number 7. -/

def traceHandoffA : CommState := runTicks communication_init [0xFE, 0x00, 0x10]

def traceHandoffB : CommState :=
  runTicks (communication_send_physics_info traceHandoffA 0 false 0)
    [0xD2, 0xD3, 0x40, 0x50]

def traceRestart : CommState :=
  runTicks (communication_send_end_round traceHandoffB) [0xFB, 0xFE, 0x60]

theorem reachable_traceRestart : Reachable traceRestart := by
  unfold traceRestart traceHandoffB traceHandoffA
  exact reachable_runTicks _ _ (Reachable.endRound _ (reachable_runTicks _ _
    (Reachable.physics _ _ _ _ (reachable_runTicks _ _ Reachable.init))))

/-- Claim C1, counterexample to the literal statement: `traceRestart` is a
reachable state (RECIEVING, sequence number 7); ticking it with the odd-half
data byte 0x70 for sequence 7 leaves the sequence number at 8, outside
[0,7], until the next tick's defensive normalization. -/
theorem c1_counterexample :
    Reachable traceRestart ∧
    traceRestart.currentState = CommunicationState_t.RECIEVING ∧
    traceRestart.physicsSeqNumber = 7 ∧
    (communication_update traceRestart
        { writeReady := false, recv := some 0x70, navPush := false
          }).state.physicsSeqNumber = 8 ∧
    ¬ (communication_update traceRestart
        { writeReady := false, recv := some 0x70, navPush := false
          }).state.physicsSeqNumber ≤ 7 := by
  refine ⟨reachable_traceRestart, by decide, by decide, by decide, by decide⟩

/-- Claim C1 (amended): after every call to the tick operation the sequence
number lies in [0,8]; it can equal 8 only transiently, because the tick
operation defensively re-normalizes it into [0,7] before acting, so a tick
behaves identically on a state and on its mod-8-normalized form. -/
theorem c1_seq_after_tick (s : CommState) (inp : CommInput) :
    (communication_update s inp).state.physicsSeqNumber ≤ 8 ∧
    communication_update s inp =
      communication_update { s with physicsSeqNumber := s.physicsSeqNumber % 8 } inp :=
  ⟨communication_update_seq_le s inp, communication_update_normalized s inp⟩

/-- Claim C2, counterexample to the literal statement: the position-half
encoder masks its payload to three bits, so payload 8 (a legal 4-bit nibble)
does not round-trip through the position half. -/
theorem c2_counterexample :
    decode_payload (encode_position_half 0 8) = 0 ∧
    ¬ decode_payload (encode_position_half 0 8) = 8 := by
  decide

/-- Claim C2 (amended): for every sequence number in [0,7] the codec
round-trips — the position half for payloads in [0,7] (the encoder keeps
only 3 position bits), and the velocity half for every direction flag and
magnitude in [0,7], whose payload nibble spans [0,15]: the decoded top four
bits equal the sequence number and the decoded bottom four bits recover the
payload (position, respectively direction bit plus magnitude). -/
theorem c2_codec_round_trip (seq p m : Nat) (d : Bool) (hseq : seq < 8) :
    (p < 8 →
      decode_seq (encode_position_half seq p) = seq ∧
      decode_payload (encode_position_half seq p) = p) ∧
    (m < 8 →
      decode_seq (encode_velocity_half seq d m) = seq ∧
      decode_payload (encode_velocity_half seq d m) &&& THREE_MASK = m ∧
      ((decode_payload (encode_velocity_half seq d m) &&& ONE_MASK != 0) = d) ∧
      decode_payload (encode_velocity_half seq d m) < 16) := by
  constructor
  · intro hp
    interval_cases seq <;> interval_cases p <;> decide
  · intro hm
    interval_cases seq <;> interval_cases m <;> cases d <;> decide

/-- Witness for C2 at sequence 3, position payload 5, velocity half with
direction true and magnitude 5. -/
theorem c2_witness :
    decode_seq (encode_position_half 3 5) = 3 ∧
    decode_payload (encode_position_half 3 5) = 5 ∧
    decode_seq (encode_velocity_half 3 true 5) = 3 ∧
    decode_payload (encode_velocity_half 3 true 5) &&& THREE_MASK = 5 ∧
    ((decode_payload (encode_velocity_half 3 true 5) &&& ONE_MASK != 0) = true) ∧
    decode_payload (encode_velocity_half 3 true 5) < 16 := by
  obtain ⟨h1, h2⟩ := c2_codec_round_trip 3 5 5 true (by decide)
  obtain ⟨a1, a2⟩ := h1 (by decide)
  obtain ⟨b1, b2, b3, b4⟩ := h2 (by decide)
  exact ⟨a1, a2, b1, b2, b3, b4⟩

/-- Claim C4: each tick writes at most one wire byte; a tick that wrote a
byte is never followed by a tick that writes one (the cadence gate alternates);
and when the write-ready check fails on a gate-eligible tick, the very next
tick is gate-eligible again (deferral, not skipping). -/
theorem c4_cadence (s : CommState) (inp inp2 : CommInput) :
    (communication_update s inp).sent.length ≤ 1 ∧
    ((communication_update s inp).sent ≠ [] →
      (communication_update (communication_update s inp).state inp2).sent = []) ∧
    ((s.tickCount + 1) % 2 = 0 → inp.writeReady = false →
      (((communication_update s inp).state.tickCount + 1) % 2 = 0)) := by
  refine ⟨communication_update_sent_len s inp, ?_, ?_⟩
  · intro hne
    have hsf : (cadence s.tickCount inp.writeReady).1 = true := by
      by_contra hc
      exact hne (communication_update_sent_nil s inp (by simpa using hc))
    have ht0 : (communication_update s inp).state.tickCount = 0 := by
      rw [communication_update_tickCount]
      exact cadence_fst_true_snd _ _ hsf
    apply communication_update_sent_nil
    rw [ht0, cadence_zero]
  · intro h1 h2
    rw [communication_update_tickCount, h2, cadence_deferred s.tickCount h1]

/-- Witness for C4: a GAME_OVER-state tick that transmits is followed by a
silent tick, and a gate-eligible tick with the link busy defers eligibility
to the next tick. -/
theorem c4_witness :
    (communication_update
        (communication_update
          ⟨.GAME_OVER, 0, null_packet, 0xFF, 1⟩
          ⟨true, none, false⟩).state
        ⟨true, none, false⟩).sent = [] ∧
    (((communication_update ⟨.GAME_OVER, 0, null_packet, 0xFF, 1⟩
        ⟨false, none, false⟩).state.tickCount + 1) % 2 = 0) := by
  refine ⟨(c4_cadence ⟨.GAME_OVER, 0, null_packet, 0xFF, 1⟩
      ⟨true, none, false⟩ ⟨true, none, false⟩).2.1 (by decide),
    (c4_cadence ⟨.GAME_OVER, 0, null_packet, 0xFF, 1⟩
      ⟨false, none, false⟩ ⟨false, none, false⟩).2.2 (by decide) rfl⟩

/-- Claim C5: submitting a ball handoff outside WAITING is a complete no-op
on the session state; in WAITING it moves to SENDING, leaves the sequence
number even, keeps the read slot and tick counter, and stores the supplied
position, direction and magnitude (3-bit values) as the pending payload. -/
theorem c5_send_physics_info (s : CommState) (p : Nat) (d : Bool) (m : Nat) :
    (s.currentState ≠ .WAITING → communication_send_physics_info s p d m = s) ∧
    (s.currentState = .WAITING →
      (communication_send_physics_info s p d m).currentState = .SENDING ∧
      (communication_send_physics_info s p d m).physicsSeqNumber % 2 = 0 ∧
      (communication_send_physics_info s p d m).readData = s.readData ∧
      (communication_send_physics_info s p d m).tickCount = s.tickCount ∧
      (communication_send_physics_info s p d m).physicsPacket =
        communication_physics_packet p d m ∧
      (p < 8 → (communication_send_physics_info s p d m).physicsPacket.posR = p) ∧
      (communication_send_physics_info s p d m).physicsPacket.dirR = d ∧
      (m < 8 → (communication_send_physics_info s p d m).physicsPacket.magC = m)) := by
  constructor
  · intro h
    simp [communication_send_physics_info, h]
  · intro h
    refine ⟨?_, ?_, ?_, ?_, ?_, ?_, ?_, ?_⟩ <;>
      simp [communication_send_physics_info, h, communication_physics_packet]
    · rcases Nat.mod_two_eq_zero_or_one s.physicsSeqNumber with h2 | h2 <;>
        (simp [h2]; try omega)
    · intro hp
      interval_cases p <;> decide
    · intro hm
      interval_cases m <;> decide

/-- Witness for C5: a call in the initial (START_REC) state is a no-op, and
a call in a WAITING state at sequence 2 stores payload (3, true, 5). -/
theorem c5_witness :
    communication_send_physics_info communication_init 3 true 5 =
      communication_init ∧
    (communication_send_physics_info
        ⟨.WAITING, 2, null_packet, 0xFF, 0⟩ 3 true 5).currentState = .SENDING ∧
    (communication_send_physics_info
        ⟨.WAITING, 2, null_packet, 0xFF, 0⟩ 3 true 5).physicsSeqNumber % 2 = 0 ∧
    (communication_send_physics_info
        ⟨.WAITING, 2, null_packet, 0xFF, 0⟩ 3 true 5).physicsPacket.posR = 3 ∧
    (communication_send_physics_info
        ⟨.WAITING, 2, null_packet, 0xFF, 0⟩ 3 true 5).physicsPacket.dirR = true ∧
    (communication_send_physics_info
        ⟨.WAITING, 2, null_packet, 0xFF, 0⟩ 3 true 5).physicsPacket.magC = 5 := by
  obtain ⟨h1, _⟩ := c5_send_physics_info communication_init 3 true 5
  obtain ⟨_, g2⟩ :=
    c5_send_physics_info (⟨.WAITING, 2, null_packet, 0xFF, 0⟩ : CommState) 3 true 5
  obtain ⟨a1, a2, a3, a4, a5, a6, a7, a8⟩ := g2 rfl
  exact ⟨h1 (by decide), a1, a2, a6 (by decide), a7, a8 (by decide)⟩

/- Facts used when dispatching RECIEVING/WAITING on a sequenced data byte:
a byte whose top nibble is a valid sequence number is none of the control
codes. -/

theorem decode_seq_lt_ne_codes (b n : Nat) (hd : decode_seq b = n) (hn : n < 8) :
    (b == START_CODE) = false ∧ (b == GAME_OVER_CODE) = false ∧
    (b == END_CODE) = false ∧ (b == START_ACK) = false ∧
    (b == END_ACK) = false := by
  subst hd
  refine ⟨?_, ?_, ?_, ?_, ?_⟩ <;>
    (rw [beq_eq_false_iff_ne]; intro h; subst h; revert hn; decide)

theorem cadence_eligible (t : Nat) (h : (t + 1) % 2 = 0) :
    (cadence t true).1 = true := by
  unfold cadence
  simp [h]

/-- A RECIEVING tick whose effective read byte carries the current sequence
number: the payload half is stored and the sequence advanced regardless of
the send frame; the ack and the slot clear happen only on a send frame. -/
theorem update_RECIEVING_match (s : CommState) (inp : CommInput) (b : Nat)
    (hst : s.currentState = .RECIEVING)
    (hseq : s.physicsSeqNumber < 8)
    (hdec : decode_seq b = s.physicsSeqNumber)
    (heff : effectiveRead s.readData inp.recv = b) :
    (communication_update s inp).state.physicsSeqNumber = s.physicsSeqNumber + 1 ∧
    (communication_update s inp).state.readData =
      (if (cadence s.tickCount inp.writeReady).1 then BLANK_BYTE else b) ∧
    (communication_update s inp).sent =
      (if (cadence s.tickCount inp.writeReady).1
        then [PHYSICS_ACK ||| s.physicsSeqNumber] else []) ∧
    (s.physicsSeqNumber % 2 = 0 →
      (communication_update s inp).state.currentState = .RECIEVING ∧
      (communication_update s inp).state.physicsPacket =
        { s.physicsPacket with posR := decode_payload b } ∧
      (communication_update s inp).packet = null_packet) ∧
    (s.physicsSeqNumber % 2 = 1 →
      (communication_update s inp).state.currentState = .WAITING ∧
      (communication_update s inp).state.physicsPacket =
        { s.physicsPacket with
          dirR := (decode_payload b &&& ONE_MASK != 0)
          magC := decode_payload b &&& THREE_MASK } ∧
      (communication_update s inp).packet =
        (communication_update s inp).state.physicsPacket) := by
  obtain ⟨hb1, hb2, hb3, hb4, hb5⟩ := decode_seq_lt_ne_codes b _ hdec hseq
  obtain ⟨st, n, pkt, rd0, t0⟩ := s
  dsimp only at hst hseq hdec heff ⊢
  subst hst
  simp only [communication_update, heff, SEQ_NUMBER_LIMIT]
  rw [Nat.mod_eq_of_lt hseq]
  simp only [case_RECIEVING, hb1, hb2, Bool.false_and, hdec, beq_self_eq_true,
    if_true, if_false, Bool.false_eq_true, ite_false, hb3]
  have h256 : (n + 1) % 256 = n + 1 := Nat.mod_eq_of_lt (by omega)
  rcases Nat.mod_two_eq_zero_or_one n with hpar | hpar <;>
    cases hsf : (cadence t0 inp.writeReady).1 <;>
      simp [hpar, h256, Nat.mod_eq_of_lt hseq]

/-- A RECIEVING tick whose effective read byte carries the previous sequence
number (duplicate): on a send frame the stale ack is retransmitted and the
slot cleared; everything else, and the returned packet, is untouched. -/
theorem update_RECIEVING_prev (s : CommState) (inp : CommInput) (b : Nat)
    (hst : s.currentState = .RECIEVING)
    (hseq : s.physicsSeqNumber < 8)
    (hdec : decode_seq b = (s.physicsSeqNumber + 8 - 1) % 8)
    (hne : decode_seq b ≠ s.physicsSeqNumber)
    (heff : effectiveRead s.readData inp.recv = b) :
    (communication_update s inp).sent =
      (if (cadence s.tickCount inp.writeReady).1
        then [PHYSICS_ACK ||| (s.physicsSeqNumber + 8 - 1) % 8] else []) ∧
    (communication_update s inp).state.readData =
      (if (cadence s.tickCount inp.writeReady).1 then BLANK_BYTE else b) ∧
    (communication_update s inp).state.physicsSeqNumber = s.physicsSeqNumber ∧
    (communication_update s inp).state.physicsPacket = s.physicsPacket ∧
    (communication_update s inp).state.currentState = .RECIEVING ∧
    (communication_update s inp).packet = null_packet := by
  have hlast : (s.physicsSeqNumber + 8 - 1) % 8 < 8 := by omega
  obtain ⟨hb1, hb2, hb3, hb4, hb5⟩ := decode_seq_lt_ne_codes b _ hdec hlast
  have hnb : (decode_seq b == s.physicsSeqNumber) = false :=
    beq_eq_false_iff_ne.mpr hne
  obtain ⟨st, n, pkt, rd0, t0⟩ := s
  dsimp only at hst hseq hdec hne hnb heff ⊢
  subst hst
  have hnb2 : (((n + 8 - 1) % 8 : Nat) == n) = false := by rw [← hdec]; exact hnb
  simp only [communication_update, heff, SEQ_NUMBER_LIMIT]
  rw [Nat.mod_eq_of_lt hseq]
  simp only [case_RECIEVING, SEQ_NUMBER_LIMIT, hb1, hb2, hb3, Bool.false_and,
    Bool.false_eq_true, if_false, ite_false, hdec, hnb2, beq_self_eq_true,
    Bool.true_and]
  cases hsf : (cadence t0 inp.writeReady).1 <;> simp [SEQ_NUMBER_LIMIT]

/-- A WAITING tick whose effective read byte carries the previous sequence
number: on a send frame the stale ack is retransmitted and the slot cleared;
everything else, and the returned packet, is untouched. -/
theorem update_WAITING_prev (s : CommState) (inp : CommInput) (b : Nat)
    (hst : s.currentState = .WAITING)
    (hdec : decode_seq b = (s.physicsSeqNumber % 8 + 8 - 1) % 8)
    (heff : effectiveRead s.readData inp.recv = b) :
    (communication_update s inp).sent =
      (if (cadence s.tickCount inp.writeReady).1
        then [PHYSICS_ACK ||| (s.physicsSeqNumber % 8 + 8 - 1) % 8] else []) ∧
    (communication_update s inp).state.readData =
      (if (cadence s.tickCount inp.writeReady).1 then BLANK_BYTE else b) ∧
    (communication_update s inp).state.physicsSeqNumber = s.physicsSeqNumber % 8 ∧
    (communication_update s inp).state.physicsPacket = s.physicsPacket ∧
    (communication_update s inp).state.currentState = .WAITING ∧
    (communication_update s inp).packet = null_packet := by
  obtain ⟨st, n, pkt, rd0, t0⟩ := s
  dsimp only at hst hdec heff ⊢
  subst hst
  simp only [communication_update, heff, SEQ_NUMBER_LIMIT]
  simp only [case_WAITING, SEQ_NUMBER_LIMIT, hdec, beq_self_eq_true, Bool.true_and]
  cases hsf : (cadence t0 inp.writeReady).1 <;> simp [SEQ_NUMBER_LIMIT]

/-- Claim C3, counterexample to the literal statement: at the reachable state
`traceRestart` (RECIEVING, sequence 7) the same current-sequence byte 0x70 on
two successive ticks leaves the stored payload identical, but the sequence
number reads 8 after the first tick and 0 after the second (the second tick's
defensive normalization), so the two values are not literally identical. -/
theorem c3_counterexample :
    Reachable traceRestart ∧
    traceRestart.currentState = CommunicationState_t.RECIEVING ∧
    decode_seq 0x70 = traceRestart.physicsSeqNumber ∧
    (communication_update traceRestart
        { writeReady := false, recv := some 0x70, navPush := false
          }).state.physicsSeqNumber = 8 ∧
    (communication_update
        (communication_update traceRestart
          { writeReady := false, recv := some 0x70, navPush := false }).state
        { writeReady := false, recv := some 0x70, navPush := false
          }).state.physicsSeqNumber = 0 ∧
    ¬ (communication_update
        (communication_update traceRestart
          { writeReady := false, recv := some 0x70, navPush := false }).state
        { writeReady := false, recv := some 0x70, navPush := false
          }).state.physicsSeqNumber =
      (communication_update traceRestart
        { writeReady := false, recv := some 0x70, navPush := false
          }).state.physicsSeqNumber := by
  exact ⟨reachable_traceRestart, by decide, by decide, by decide, by decide, by decide⟩

/-- Claim C3 (amended): in RECIEVING, when the data byte carrying the current
sequence number is received on two successive ticks, the payload update is
applied exactly once — after the second tick the stored payload, the protocol
state and the sequence number modulo 8 are identical to their values after
the first tick (literal equality of the sequence number can fail only through
the normalization 8 to 0), the second tick emits no event, and at most
re-acknowledges the previous sequence number. -/
theorem c3_duplicate_suppression (s : CommState) (inp1 inp2 : CommInput)
    (b : Nat)
    (hst : s.currentState = .RECIEVING)
    (hseq : s.physicsSeqNumber < 8)
    (hdec : decode_seq b = s.physicsSeqNumber)
    (hrecv1 : inp1.recv = some b) (hrecv2 : inp2.recv = some b) :
    (communication_update (communication_update s inp1).state inp2).state.physicsPacket =
      (communication_update s inp1).state.physicsPacket ∧
    (communication_update (communication_update s inp1).state inp2).state.physicsSeqNumber % 8 =
      (communication_update s inp1).state.physicsSeqNumber % 8 ∧
    (communication_update (communication_update s inp1).state inp2).state.currentState =
      (communication_update s inp1).state.currentState ∧
    (communication_update (communication_update s inp1).state inp2).packet = null_packet ∧
    ((communication_update (communication_update s inp1).state inp2).sent = [] ∨
      (communication_update (communication_update s inp1).state inp2).sent =
        [PHYSICS_ACK ||| decode_seq b]) := by
  have heff1 : effectiveRead s.readData inp1.recv = b := by
    simp [effectiveRead, hrecv1]
  obtain ⟨e1, e2, e3, e4, e5⟩ := update_RECIEVING_match s inp1 b hst hseq hdec heff1
  have heff2 :
      effectiveRead (communication_update s inp1).state.readData inp2.recv = b := by
    simp [effectiveRead, hrecv2]
  rcases Nat.mod_two_eq_zero_or_one s.physicsSeqNumber with hpar | hpar
  · obtain ⟨f1, f2, f3⟩ := e4 hpar
    have hseq1 : (communication_update s inp1).state.physicsSeqNumber < 8 := by omega
    have hdec2 : decode_seq b =
        ((communication_update s inp1).state.physicsSeqNumber + 8 - 1) % 8 := by omega
    have hne2 : decode_seq b ≠ (communication_update s inp1).state.physicsSeqNumber := by
      omega
    obtain ⟨g1, g2, g3, g4, g5, g6⟩ :=
      update_RECIEVING_prev (communication_update s inp1).state inp2 b f1 hseq1
        hdec2 hne2 heff2
    refine ⟨g4, by rw [g3], by rw [g5, f1], g6, ?_⟩
    rw [g1]
    cases (cadence (communication_update s inp1).state.tickCount inp2.writeReady).1
    · exact Or.inl (by simp)
    · refine Or.inr ?_
      have hv : ((communication_update s inp1).state.physicsSeqNumber + 8 - 1) % 8 =
          decode_seq b := by omega
      rw [hv]
      simp
  · obtain ⟨f1, f2, f3⟩ := e5 hpar
    have hdec2 : decode_seq b =
        ((communication_update s inp1).state.physicsSeqNumber % 8 + 8 - 1) % 8 := by
      omega
    obtain ⟨g1, g2, g3, g4, g5, g6⟩ :=
      update_WAITING_prev (communication_update s inp1).state inp2 b f1 hdec2 heff2
    refine ⟨g4, by omega, by rw [g5, f1], g6, ?_⟩
    rw [g1]
    cases (cadence (communication_update s inp1).state.tickCount inp2.writeReady).1
    · exact Or.inl (by simp)
    · refine Or.inr ?_
      have hv : ((communication_update s inp1).state.physicsSeqNumber % 8 + 8 - 1) % 8 =
          decode_seq b := by omega
      rw [hv]
      simp

/-- Witness for C3 at a RECIEVING state with sequence 2 receiving the data
byte 0x25 on two successive ticks. -/
theorem c3_witness :
    (communication_update
        (communication_update ⟨.RECIEVING, 2, null_packet, 0xFF, 0⟩
          ⟨false, some 0x25, false⟩).state
        ⟨false, some 0x25, false⟩).state.physicsPacket =
      (communication_update ⟨.RECIEVING, 2, null_packet, 0xFF, 0⟩
        ⟨false, some 0x25, false⟩).state.physicsPacket ∧
    (communication_update
        (communication_update ⟨.RECIEVING, 2, null_packet, 0xFF, 0⟩
          ⟨false, some 0x25, false⟩).state
        ⟨false, some 0x25, false⟩).state.physicsSeqNumber % 8 =
      (communication_update ⟨.RECIEVING, 2, null_packet, 0xFF, 0⟩
        ⟨false, some 0x25, false⟩).state.physicsSeqNumber % 8 ∧
    (communication_update
        (communication_update ⟨.RECIEVING, 2, null_packet, 0xFF, 0⟩
          ⟨false, some 0x25, false⟩).state
        ⟨false, some 0x25, false⟩).packet = null_packet :=
  have h := c3_duplicate_suppression ⟨.RECIEVING, 2, null_packet, 0xFF, 0⟩
    ⟨false, some 0x25, false⟩ ⟨false, some 0x25, false⟩ 0x25
    rfl (by decide) (by decide) rfl rfl
  ⟨h.1, h.2.1, h.2.2.2.1⟩

/-- Claim C6: in START_REC, a received START_CODE moves the machine to
RECIEVING and returns match-started with the ball on the other side, without
clearing the read slot; on a later send-eligible tick the still-visible
START_CODE makes the RECIEVING state reply START_ACK and clear the slot. -/
theorem c6_handshake_ack (s : CommState) (inp1 inp2 : CommInput)
    (hst : s.currentState = .START_REC)
    (hrecv1 : inp1.recv = some START_CODE)
    (hrecv2 : inp2.recv = none) (hwr2 : inp2.writeReady = true)
    (helig2 : ((communication_update s inp1).state.tickCount + 1) % 2 = 0) :
    (communication_update s inp1).state.currentState = .RECIEVING ∧
    (communication_update s inp1).packet = game_start_packet false ∧
    (communication_update s inp1).state.readData = START_CODE ∧
    (communication_update s inp1).sent = [] ∧
    (communication_update (communication_update s inp1).state inp2).sent =
      [START_ACK] ∧
    (communication_update (communication_update s inp1).state inp2).state.readData =
      BLANK_BYTE ∧
    (communication_update (communication_update s inp1).state inp2).state.currentState =
      .RECIEVING ∧
    (communication_update (communication_update s inp1).state inp2).packet =
      null_packet := by
  obtain ⟨st, n, pkt, rd0, t0⟩ := s
  dsimp only at hst helig2 ⊢
  subst hst
  have hr1 : communication_update ⟨.START_REC, n, pkt, rd0, t0⟩ inp1 =
      { state := ⟨.RECIEVING, n % 8, pkt, START_CODE,
          (cadence t0 inp1.writeReady).2⟩,
        sent := [], packet := game_start_packet false } := by
    simp [communication_update, effectiveRead, hrecv1, case_START_REC,
      SEQ_NUMBER_LIMIT]
  rw [hr1] at helig2 ⊢
  dsimp only at helig2 ⊢
  have hsf2 : (cadence (cadence t0 inp1.writeReady).2 inp2.writeReady).1 = true := by
    rw [hwr2]
    exact cadence_eligible _ helig2
  simp [communication_update, effectiveRead, hrecv2, case_RECIEVING,
    SEQ_NUMBER_LIMIT, hsf2]

/-- Witness for C6 from the initial state: START_CODE arrives on the first
tick (no send frame), and the second tick is send-eligible. -/
theorem c6_witness :
    (communication_update
        (communication_update communication_init
          ⟨false, some 0xFE, false⟩).state
        ⟨true, none, false⟩).sent = [START_ACK] ∧
    (communication_update communication_init
        ⟨false, some 0xFE, false⟩).state.readData = START_CODE :=
  have h := c6_handshake_ack communication_init ⟨false, some 0xFE, false⟩
    ⟨true, none, false⟩ rfl rfl rfl rfl (by decide)
  ⟨h.2.2.2.2.1, h.2.2.1⟩

/-- Claim C7: in RECIEVING at sequence 2, a byte whose top nibble is 1 (the
previous sequence) on a send-eligible tick produces exactly one write — the
physics ack 0xD0|1 — and leaves payload, sequence number and state untouched,
returning the empty packet. -/
theorem c7_stale_reack (s : CommState) (inp : CommInput) (b : Nat)
    (hst : s.currentState = .RECIEVING)
    (hseq2 : s.physicsSeqNumber = 2)
    (hdec : decode_seq b = 1)
    (hrecv : inp.recv = some b)
    (hwr : inp.writeReady = true)
    (ht : (s.tickCount + 1) % 2 = 0) :
    (communication_update s inp).sent = [PHYSICS_ACK ||| 1] ∧
    (communication_update s inp).state.physicsPacket = s.physicsPacket ∧
    (communication_update s inp).state.physicsSeqNumber = 2 ∧
    (communication_update s inp).state.currentState = .RECIEVING ∧
    (communication_update s inp).packet = null_packet ∧
    (communication_update s inp).state.readData = BLANK_BYTE := by
  have hsf : (cadence s.tickCount inp.writeReady).1 = true := by
    rw [hwr]
    exact cadence_eligible _ ht
  have heff : effectiveRead s.readData inp.recv = b := by
    simp [effectiveRead, hrecv]
  have hdec2 : decode_seq b = (s.physicsSeqNumber + 8 - 1) % 8 := by omega
  have hne : decode_seq b ≠ s.physicsSeqNumber := by omega
  obtain ⟨g1, g2, g3, g4, g5, g6⟩ :=
    update_RECIEVING_prev s inp b hst (by omega) hdec2 hne heff
  rw [hsf] at g1 g2
  refine ⟨?_, g4, by omega, g5, g6, by simpa using g2⟩
  have hv : (s.physicsSeqNumber + 8 - 1) % 8 = 1 := by omega
  rw [g1, hv]
  simp

/-- Witness for C7 at a concrete RECIEVING state with sequence 2, byte 0x15,
on a send-eligible tick. -/
theorem c7_witness :
    (communication_update ⟨.RECIEVING, 2, null_packet, 0xFF, 1⟩
        ⟨true, some 0x15, false⟩).sent = [PHYSICS_ACK ||| 1] ∧
    (communication_update ⟨.RECIEVING, 2, null_packet, 0xFF, 1⟩
        ⟨true, some 0x15, false⟩).state.physicsSeqNumber = 2 ∧
    (communication_update ⟨.RECIEVING, 2, null_packet, 0xFF, 1⟩
        ⟨true, some 0x15, false⟩).packet = null_packet :=
  have h := c7_stale_reack ⟨.RECIEVING, 2, null_packet, 0xFF, 1⟩
    ⟨true, some 0x15, false⟩ 0x15 rfl rfl (by decide) rfl rfl (by decide)
  ⟨h.1, h.2.2.1, h.2.2.2.2.1⟩

/-- Claim C9: in RECIEVING, the even (position) half stores the full 4-bit
payload nibble unmasked, so a later emitted ball-handoff can carry a position
up to 15 (outside the documented 0-6 range) — shown concretely by feeding
0x0F then 0x18 to a fresh RECIEVING session, which emits posR = 15 — while
the sending side masks position and magnitude to three bits when it builds
the outgoing packet. -/
theorem c9_unmasked_position (s : CommState) (inp : CommInput) (b p m : Nat)
    (d : Bool)
    (hst : s.currentState = .RECIEVING)
    (hseq : s.physicsSeqNumber < 8)
    (hpar : s.physicsSeqNumber % 2 = 0)
    (hdec : decode_seq b = s.physicsSeqNumber)
    (hrecv : inp.recv = some b) :
    (communication_update s inp).state.physicsPacket.posR = decode_payload b ∧
    (communication_physics_packet p d m).posR = p &&& THREE_MASK ∧
    (communication_physics_packet p d m).magC = m &&& THREE_MASK ∧
    (communication_update
        (tickRecv ⟨.RECIEVING, 0, { null_packet with physicsInfo := true },
          0xFF, 0⟩ 0x0F)
        { writeReady := false, recv := some 0x18, navPush := false }).packet =
      { startGame := false, haveBall := false, endRound := false,
        gameOver := false, physicsInfo := true, posR := 15, dirR := true,
        magC := 0 } := by
  refine ⟨?_, rfl, rfl, by decide⟩
  have heff : effectiveRead s.readData inp.recv = b := by
    simp [effectiveRead, hrecv]
  obtain ⟨e1, e2, e3, e4, e5⟩ := update_RECIEVING_match s inp b hst hseq hdec heff
  obtain ⟨f1, f2, f3⟩ := e4 hpar
  rw [f2]

/-- Witness for C9 at a fresh RECIEVING state receiving 0x0F (sequence 0,
payload nibble 15). -/
theorem c9_witness :
    (communication_update
        ⟨.RECIEVING, 0, { null_packet with physicsInfo := true }, 0xFF, 0⟩
        ⟨false, some 0x0F, false⟩).state.physicsPacket.posR = 15 ∧
    (communication_physics_packet 9 true 10).posR = 1 ∧
    (communication_physics_packet 9 true 10).magC = 2 :=
  have h := c9_unmasked_position
    ⟨.RECIEVING, 0, { null_packet with physicsInfo := true }, 0xFF, 0⟩
    ⟨false, some 0x0F, false⟩ 0x0F 9 2 true rfl (by decide) rfl (by decide) rfl
  ⟨h.1, h.2.1, by decide⟩

/-- Claim C10: in RECIEVING, a current-sequence data byte on a tick with no
send frame still has its payload stored and the sequence advanced, with no
ack written and the read slot left holding the byte; the immediately
following tick, when the link is ready, sends the deferred ack for the (now
previous) sequence number and clears the slot, leaving the stored payload
untouched. -/
theorem c10_deferred_reack (s : CommState) (inp1 inp2 : CommInput) (b : Nat)
    (hst : s.currentState = .RECIEVING)
    (hseq : s.physicsSeqNumber < 8)
    (hdec : decode_seq b = s.physicsSeqNumber)
    (hrecv1 : inp1.recv = some b)
    (hnosend : (cadence s.tickCount inp1.writeReady).1 = false)
    (hrecv2 : inp2.recv = none) (hwr2 : inp2.writeReady = true) :
    (communication_update s inp1).state.physicsSeqNumber =
      s.physicsSeqNumber + 1 ∧
    (communication_update s inp1).sent = [] ∧
    (communication_update s inp1).state.readData = b ∧
    (s.physicsSeqNumber % 2 = 0 →
      (communication_update s inp1).state.physicsPacket.posR = decode_payload b) ∧
    (s.physicsSeqNumber % 2 = 1 →
      (communication_update s inp1).state.physicsPacket.dirR =
        (decode_payload b &&& ONE_MASK != 0) ∧
      (communication_update s inp1).state.physicsPacket.magC =
        decode_payload b &&& THREE_MASK) ∧
    (communication_update (communication_update s inp1).state inp2).sent =
      [PHYSICS_ACK ||| s.physicsSeqNumber] ∧
    (communication_update (communication_update s inp1).state inp2).state.readData =
      BLANK_BYTE ∧
    (communication_update (communication_update s inp1).state inp2).state.physicsPacket =
      (communication_update s inp1).state.physicsPacket := by
  have heff1 : effectiveRead s.readData inp1.recv = b := by
    simp [effectiveRead, hrecv1]
  obtain ⟨e1, e2, e3, e4, e5⟩ := update_RECIEVING_match s inp1 b hst hseq hdec heff1
  rw [hnosend] at e2 e3
  simp only [Bool.false_eq_true, if_false, ite_false] at e2 e3
  have ht1 : (communication_update s inp1).state.tickCount = 1 := by
    rw [communication_update_tickCount]
    exact cadence_fst_false_snd _ _ hnosend
  have hsf2 :
      (cadence (communication_update s inp1).state.tickCount inp2.writeReady).1 =
        true := by
    rw [ht1, hwr2]
    exact cadence_eligible 1 (by norm_num)
  have heff2 :
      effectiveRead (communication_update s inp1).state.readData inp2.recv = b := by
    simp [effectiveRead, hrecv2, e2]
  rcases Nat.mod_two_eq_zero_or_one s.physicsSeqNumber with hpar | hpar
  · obtain ⟨f1, f2, f3⟩ := e4 hpar
    have hseq1 : (communication_update s inp1).state.physicsSeqNumber < 8 := by omega
    have hdec2 : decode_seq b =
        ((communication_update s inp1).state.physicsSeqNumber + 8 - 1) % 8 := by omega
    have hne2 : decode_seq b ≠ (communication_update s inp1).state.physicsSeqNumber := by
      omega
    obtain ⟨g1, g2, g3, g4, g5, g6⟩ :=
      update_RECIEVING_prev (communication_update s inp1).state inp2 b f1 hseq1
        hdec2 hne2 heff2
    rw [hsf2] at g1 g2
    simp only [eq_self_iff_true, if_true, ite_true] at g1 g2
    refine ⟨e1, e3, e2, fun _ => by rw [f2], fun hco => by exfalso; omega, ?_, g2, g4⟩
    have hv : ((communication_update s inp1).state.physicsSeqNumber + 8 - 1) % 8 =
        s.physicsSeqNumber := by omega
    rw [g1, hv]
  · obtain ⟨f1, f2, f3⟩ := e5 hpar
    have hdec2 : decode_seq b =
        ((communication_update s inp1).state.physicsSeqNumber % 8 + 8 - 1) % 8 := by
      omega
    obtain ⟨g1, g2, g3, g4, g5, g6⟩ :=
      update_WAITING_prev (communication_update s inp1).state inp2 b f1 hdec2 heff2
    rw [hsf2] at g1 g2
    simp only [eq_self_iff_true, if_true, ite_true] at g1 g2
    refine ⟨e1, e3, e2, fun hco => by exfalso; omega,
      fun _ => by rw [f2]; exact ⟨rfl, rfl⟩, ?_, g2, g4⟩
    have hv : ((communication_update s inp1).state.physicsSeqNumber % 8 + 8 - 1) % 8 =
        s.physicsSeqNumber := by omega
    rw [g1, hv]

/-- Witness for C10 at a RECIEVING state with sequence 4 receiving 0x4B on a
non-send tick followed by a send-eligible silent tick. -/
theorem c10_witness :
    (communication_update ⟨.RECIEVING, 4, null_packet, 0xFF, 0⟩
        ⟨false, some 0x4B, false⟩).state.physicsSeqNumber = 5 ∧
    (communication_update ⟨.RECIEVING, 4, null_packet, 0xFF, 0⟩
        ⟨false, some 0x4B, false⟩).sent = [] ∧
    (communication_update ⟨.RECIEVING, 4, null_packet, 0xFF, 0⟩
        ⟨false, some 0x4B, false⟩).state.readData = 0x4B ∧
    (communication_update
        (communication_update ⟨.RECIEVING, 4, null_packet, 0xFF, 0⟩
          ⟨false, some 0x4B, false⟩).state
        ⟨true, none, false⟩).sent = [PHYSICS_ACK ||| 4] ∧
    (communication_update
        (communication_update ⟨.RECIEVING, 4, null_packet, 0xFF, 0⟩
          ⟨false, some 0x4B, false⟩).state
        ⟨true, none, false⟩).state.readData = BLANK_BYTE :=
  have h := c10_deferred_reack ⟨.RECIEVING, 4, null_packet, 0xFF, 0⟩
    ⟨false, some 0x4B, false⟩ ⟨true, none, false⟩ 0x4B
    rfl (by decide) (by decide) rfl (by decide) rfl rfl
  ⟨h.1, h.2.1, h.2.2.1, h.2.2.2.2.2.1, h.2.2.2.2.2.2.1⟩

/- The event-flag discipline of returned packets (claim C8).  The stored
physics packet of any reachable session has exactly the physicsInfo flag
set, so every packet the tick operation returns carries at most one event
flag. -/

def physInfoOnly (p : CommunicationPacket_t) : Prop :=
  p.startGame = false ∧ p.endRound = false ∧ p.gameOver = false ∧
    p.physicsInfo = true

def eventFlagCount (p : CommunicationPacket_t) : Nat :=
  (if p.startGame then 1 else 0) + (if p.endRound then 1 else 0) +
    (if p.gameOver then 1 else 0) + (if p.physicsInfo then 1 else 0)

theorem case_START_REC_inv (seq : Nat) (pkt : CommunicationPacket_t)
    (rd : Nat) (sf nav : Bool) (h : physInfoOnly pkt) :
    physInfoOnly (case_START_REC seq pkt rd sf nav).pkt ∧
    ((case_START_REC seq pkt rd sf nav).ret = null_packet ∨
      eventFlagCount (case_START_REC seq pkt rd sf nav).ret = 1) := by
  simp only [case_START_REC]
  repeat' split
  all_goals simp_all [physInfoOnly, eventFlagCount, null_packet,
    game_start_packet, end_round_packet, end_game_packet]

theorem case_START_SEND_inv (seq : Nat) (pkt : CommunicationPacket_t)
    (rd : Nat) (sf : Bool) (h : physInfoOnly pkt) :
    physInfoOnly (case_START_SEND seq pkt rd sf).pkt ∧
    ((case_START_SEND seq pkt rd sf).ret = null_packet ∨
      eventFlagCount (case_START_SEND seq pkt rd sf).ret = 1) := by
  simp only [case_START_SEND]
  repeat' split
  all_goals simp_all [physInfoOnly, eventFlagCount, null_packet,
    game_start_packet, end_round_packet, end_game_packet]

theorem case_RECIEVING_inv (seq : Nat) (pkt : CommunicationPacket_t)
    (rd : Nat) (sf : Bool) (h : physInfoOnly pkt) :
    physInfoOnly (case_RECIEVING seq pkt rd sf).pkt ∧
    ((case_RECIEVING seq pkt rd sf).ret = null_packet ∨
      eventFlagCount (case_RECIEVING seq pkt rd sf).ret = 1) := by
  simp only [case_RECIEVING]
  repeat' split
  all_goals simp_all [physInfoOnly, eventFlagCount, null_packet,
    game_start_packet, end_round_packet, end_game_packet]

theorem case_WAITING_inv (seq : Nat) (pkt : CommunicationPacket_t)
    (rd : Nat) (sf : Bool) (h : physInfoOnly pkt) :
    physInfoOnly (case_WAITING seq pkt rd sf).pkt ∧
    ((case_WAITING seq pkt rd sf).ret = null_packet ∨
      eventFlagCount (case_WAITING seq pkt rd sf).ret = 1) := by
  simp only [case_WAITING]
  repeat' split
  all_goals simp_all [physInfoOnly, eventFlagCount, null_packet]

theorem case_SENDING_inv (seq : Nat) (pkt : CommunicationPacket_t)
    (rd : Nat) (sf : Bool) (h : physInfoOnly pkt) :
    physInfoOnly (case_SENDING seq pkt rd sf).pkt ∧
    ((case_SENDING seq pkt rd sf).ret = null_packet ∨
      eventFlagCount (case_SENDING seq pkt rd sf).ret = 1) := by
  simp only [case_SENDING, sending_send]
  repeat' split
  all_goals simp_all [physInfoOnly, eventFlagCount, null_packet]

theorem case_END_ROUND_inv (seq : Nat) (pkt : CommunicationPacket_t)
    (rd : Nat) (sf : Bool) (h : physInfoOnly pkt) :
    physInfoOnly (case_END_ROUND seq pkt rd sf).pkt ∧
    ((case_END_ROUND seq pkt rd sf).ret = null_packet ∨
      eventFlagCount (case_END_ROUND seq pkt rd sf).ret = 1) := by
  simp only [case_END_ROUND]
  repeat' split
  all_goals simp_all [physInfoOnly, eventFlagCount, null_packet]

theorem case_GAME_OVER_inv (seq : Nat) (pkt : CommunicationPacket_t)
    (rd : Nat) (sf : Bool) (h : physInfoOnly pkt) :
    physInfoOnly (case_GAME_OVER seq pkt rd sf).pkt ∧
    ((case_GAME_OVER seq pkt rd sf).ret = null_packet ∨
      eventFlagCount (case_GAME_OVER seq pkt rd sf).ret = 1) := by
  simp only [case_GAME_OVER]
  repeat' split
  all_goals simp_all [physInfoOnly, eventFlagCount, null_packet]

theorem communication_update_pktInv (s : CommState) (inp : CommInput)
    (h : physInfoOnly s.physicsPacket) :
    physInfoOnly (communication_update s inp).state.physicsPacket ∧
    ((communication_update s inp).packet = null_packet ∨
      eventFlagCount (communication_update s inp).packet = 1) := by
  obtain ⟨st, n, pkt, rd, t⟩ := s
  dsimp only at h
  cases st <;> simp only [communication_update] <;>
    first
      | exact case_START_REC_inv _ _ _ _ _ h
      | exact case_START_SEND_inv _ _ _ _ h
      | exact case_RECIEVING_inv _ _ _ _ h
      | exact case_WAITING_inv _ _ _ _ h
      | exact case_SENDING_inv _ _ _ _ h
      | exact case_END_ROUND_inv _ _ _ _ h
      | exact case_GAME_OVER_inv _ _ _ _ h

theorem reachable_physInfoOnly (s : CommState) (h : Reachable s) :
    physInfoOnly s.physicsPacket := by
  induction h with
  | init => exact ⟨rfl, rfl, rfl, rfl⟩
  | tick s inp hr ih => exact (communication_update_pktInv s inp ih).1
  | physics s p d m hr ih =>
    unfold communication_send_physics_info
    split_ifs
    · exact ih
    all_goals exact ⟨rfl, rfl, rfl, rfl⟩
  | endRound s hr ih => exact ih
  | endGame s hr ih => exact ih

/-- Claim C8: from any reachable session state, the packet returned by a
tick carries at most one of the event flags startGame, endRound, gameOver,
physicsInfo — it is the flagless empty packet unless exactly one event
fires. -/
theorem c8_single_event (s : CommState) (inp : CommInput) (h : Reachable s) :
    eventFlagCount (communication_update s inp).packet ≤ 1 ∧
    ((communication_update s inp).packet = null_packet ∨
      eventFlagCount (communication_update s inp).packet = 1) := by
  have h2 := (communication_update_pktInv s inp (reachable_physInfoOnly s h)).2
  refine ⟨?_, h2⟩
  rcases h2 with h2 | h2
  · rw [h2]
    decide
  · omega

/-- Witness for C8 at the initial state with a silent tick. -/
theorem c8_witness :
    eventFlagCount (communication_update communication_init
        { writeReady := false, recv := none, navPush := false }).packet ≤ 1 ∧
    ((communication_update communication_init
        { writeReady := false, recv := none, navPush := false }).packet =
          null_packet ∨
      eventFlagCount (communication_update communication_init
        { writeReady := false, recv := none, navPush := false }).packet = 1) :=
  c8_single_event communication_init
    { writeReady := false, recv := none, navPush := false } Reachable.init
